import Mathlib

/-
Verification development for the AcademicJournalClassifier repository.

The core components are shallowly embedded from the Python sources:
  download_pdfs_from_csv.py    (ordered fallback resolver, streaming validator,
                                per-row orchestration with secondary repair)
  scraper.py                   (topic resolver, streaming validator,
                                per-work orchestration without repair)
  src/vision2030_multi_source_harvest.py   (canonical key and identity merger)

Network effects are modelled by explicit oracle functions packaged in a Net
structure; every other computation is translated directly from the source.
Python string methods are modelled by executable functions over the character
list of a string, over the ASCII range the repository exercises. Python
strings that may be empty keep the Python truthiness convention: the empty
string is falsy, and pyStr collapses an optional empty string to none exactly
where the source performs a truthiness test.
-/

/-- Byte strings are modelled as lists of byte values. -/
abbrev Bytes := List Nat

/-- PDF magic marker bytes: the ASCII codes of percent, P, D, F. -/
def pdfMagic : Bytes := [37, 80, 68, 70]

/-- Contiguous occurrence test on lists. -/
def occursWithin {α : Type} [BEq α] (needle : List α) (hay : List α) : Bool :=
  match hay with
  | [] => needle.isEmpty
  | _ :: tail => needle.isPrefixOf hay || occursWithin needle tail

/-- Substring test modelling the Python in operator on strings:
pyContains hay needle is true when needle occurs contiguously in hay. -/
def pyContains (hay needle : String) : Bool :=
  occursWithin needle.data hay.data

/-- Python a or b on strings, where the empty string is falsy. -/
def pyOr (a b : String) : String :=
  if a ≠ "" then a else b

/-- Collapse an empty string to none, mirroring a Python truthiness test
applied to a string-or-None value at the call sites below. -/
def pyStr (o : Option String) : Option String :=
  match o with
  | some s => if s = "" then none else some s
  | none => none

/-- Python str.lower over the ASCII range. -/
def pyLower (s : String) : String :=
  String.mk (s.data.map Char.toLower)

/-- Python str.endswith. -/
def pyEndsWith (s suffix0 : String) : Bool :=
  suffix0.data.reverse.isPrefixOf s.data.reverse

/-- Python str.startswith. -/
def pyStartsWith (s pre : String) : Bool :=
  pre.data.isPrefixOf s.data

/-- Whitespace characters stripped and split on by the Python string and
regex operations used here: space, tab, newline, carriage return, vertical
tab and form feed. -/
def pySpace (c : Char) : Bool :=
  c == ' ' || c == '\t' || c == '\n' || c == '\r' || c == Char.ofNat 11 || c == Char.ofNat 12

/-- Python str.strip with no arguments. -/
def pyTrim (s : String) : String :=
  String.mk (((s.data.dropWhile pySpace).reverse.dropWhile pySpace).reverse)

/-- Python string slicing s[n:] over the character list. -/
def pyDrop (s : String) (n : Nat) : String :=
  String.mk (s.data.drop n)

/-- Fuelled scan underlying pyReplace: replaces non-overlapping occurrences
of a non-empty pattern left to right; the fuel is the list length, enough
because every step consumes at least one character. -/
def replaceFuel (pat rep : List Char) : Nat → List Char → List Char
  | 0, l => l
  | _ + 1, [] => []
  | fuel + 1, c :: cs =>
    if pat.isPrefixOf (c :: cs) && !pat.isEmpty then
      rep ++ replaceFuel pat rep fuel ((c :: cs).drop pat.length)
    else c :: replaceFuel pat rep fuel cs

/-- Python str.replace for a non-empty pattern. -/
def pyReplace (s pat rep : String) : String :=
  String.mk (replaceFuel pat.data rep.data s.data.length s.data)

/-- Fuelled scan underlying pySplitOn, splitting on a non-empty separator. -/
def splitOnFuel (sep : List Char) : Nat → List Char → List Char → List (List Char)
  | 0, acc, l => [acc.reverse ++ l]
  | _ + 1, acc, [] => [acc.reverse]
  | fuel + 1, acc, c :: cs =>
    if sep.isPrefixOf (c :: cs) && !sep.isEmpty then
      acc.reverse :: splitOnFuel sep fuel [] ((c :: cs).drop sep.length)
    else splitOnFuel sep fuel (c :: acc) cs

/-- Python str.split on a non-empty separator string. -/
def pySplitOn (s sep : String) : List String :=
  (splitOnFuel sep.data (s.data.length + 1) [] s.data).map String.mk

/-- Join a list of character lists with a separator. -/
def joinWith (sep : List Char) : List (List Char) → List Char
  | [] => []
  | [x] => x
  | x :: y :: rest => x ++ sep ++ joinWith sep (y :: rest)

/-- Split a character list into the groups delimited by characters
satisfying p, keeping empty groups at the ends and between adjacent
delimiters. -/
def splitGroups (p : Char → Bool) (l : List Char) : List (List Char) :=
  l.foldr (fun c acc =>
    match acc with
    | [] => [[c]]
    | g :: gs => if p c then [] :: g :: gs else (c :: g) :: gs) [[]]

/-- Split an absolute URL into its scheme-plus-host part and its path part.
Returns none when the string has no scheme separator. -/
def splitSchemeHost (u : String) : Option (String × String) :=
  match pySplitOn u "://" with
  | [] => none
  | [_] => none
  | scheme :: rest =>
    let tail := joinWith "://".data (rest.map String.data)
    let host := String.mk (tail.takeWhile (fun c => c ≠ '/'))
    let path := String.mk (tail.dropWhile (fun c => c ≠ '/'))
    some (scheme ++ "://" ++ host, path)

/-- Prefix of a URL path up to and including the last slash. -/
def dirPart (path : String) : String :=
  String.mk ((path.data.reverse.dropWhile (fun c => c ≠ '/')).reverse)

/-- Modelled from the Python standard library: urllib.parse.urljoin restricted
to the URL shapes exercised by this repository (absolute references,
protocol-relative, root-relative and path-relative references, and the empty
reference). Dot-segment normalisation is not modelled. -/
def urljoin (base rel : String) : String :=
  if rel = "" then base
  else if pyStartsWith (pyLower rel) "http://" || pyStartsWith (pyLower rel) "https://" then rel
  else
    match splitSchemeHost base with
    | none => rel
    | some (sh, path) =>
      if pyStartsWith rel "//" then ((pySplitOn base "://").headD "") ++ ":" ++ rel
      else if pyStartsWith rel "/" then sh ++ rel
      else
        let d := dirPart path
        sh ++ (if d = "" then "/" else d) ++ rel

/-- One parsed markup element relevant to extract_pdf_from_html: the meta,
link and anchor tags that the BeautifulSoup lookups inspect, in document
order. -/
inductive Tag where
  | meta (nameAttr propAttr content : Option String)
  | link (typeAttr : Option String) (href : Option String)
  | anchor (href : String)
deriving DecidableEq

/-- Modelled parse of an HTML document: the tag soup in document order, plus
the result of the raw regex scan for an absolute URL ending in .pdf,
abstracted as an oracle field because the regular-expression engine is an
external library. -/
structure Html where
  tags : List Tag
  rawPdf : Option String
deriving DecidableEq

/-- First meta tag whose name attribute equals nm, as in the BeautifulSoup
find call keyed on the name attribute. -/
def findMetaByName (tags : List Tag) (nm : String) : Option Tag :=
  tags.find? (fun t => match t with | .meta n _ _ => n = some nm | _ => false)

/-- First meta tag whose property attribute equals nm. -/
def findMetaByProp (tags : List Tag) (nm : String) : Option Tag :=
  tags.find? (fun t => match t with | .meta _ p _ => p = some nm | _ => false)

/-- Content attribute of a meta tag, when present. -/
def metaContent (t : Tag) : Option String :=
  match t with
  | .meta _ _ c => c
  | _ => none

/-- Translation of extract_pdf_from_html (identical in
download_pdfs_from_csv.py and scraper.py): meta tags named or propertied
citation_pdf_url or pdf_url first, then link elements whose type contains
pdf, then anchors, finally the raw regex scan. Every found reference is
resolved against the supplied url with urljoin. -/
def extract_pdf_from_html (url : String) (html : Html) : Option String :=
  match ["citation_pdf_url", "pdf_url"].findSome? (fun nm =>
      match (findMetaByName html.tags nm).orElse (fun _ => findMetaByProp html.tags nm) with
      | some t =>
        match metaContent t with
        | some c => if c ≠ "" then some (urljoin url c) else none
        | none => none
      | none => none) with
  | some r => some r
  | none =>
  match html.tags.findSome? (fun t =>
      match t with
      | .link ty (some h) =>
        if pyContains (pyLower (ty.getD "")) "pdf" then some (urljoin url h) else none
      | _ => none) with
  | some r => some r
  | none =>
  match html.tags.findSome? (fun t =>
      match t with
      | .anchor href0 =>
        let href := pyTrim href0
        if pyEndsWith (pyLower href) ".pdf" then some (urljoin url href)
        else if pyContains (pyLower href) "download" &&
            (pyContains (pyLower href) "pdf" || pyContains (pyLower href) "fulltext") then
          some (urljoin url href)
        else none
      | _ => none) with
  | some r => some r
  | none => html.rawPdf

/-- Meta-tag step of the landing-page scrape, as the specification orders it. -/
def metaStep (url : String) (html : Html) : Option String :=
  ["citation_pdf_url", "pdf_url"].findSome? (fun nm =>
    match (findMetaByName html.tags nm).orElse (fun _ => findMetaByProp html.tags nm) with
    | some t =>
      match metaContent t with
      | some c => if c ≠ "" then some (urljoin url c) else none
      | none => none
    | none => none)

/-- Link-element step of the landing-page scrape. -/
def linkStep (url : String) (html : Html) : Option String :=
  html.tags.findSome? (fun t =>
    match t with
    | .link ty (some h) =>
      if pyContains (pyLower (ty.getD "")) "pdf" then some (urljoin url h) else none
    | _ => none)

/-- Anchor step of the landing-page scrape. -/
def anchorStep (url : String) (html : Html) : Option String :=
  html.tags.findSome? (fun t =>
    match t with
    | .anchor href0 =>
      let href := pyTrim href0
      if pyEndsWith (pyLower href) ".pdf" then some (urljoin url href)
      else if pyContains (pyLower href) "download" &&
          (pyContains (pyLower href) "pdf" || pyContains (pyLower href) "fulltext") then
        some (urljoin url href)
      else none
    | _ => none)

/-- Scrape written from the specification: the four examination steps tried
strictly in order, first hit wins. -/
def extractSpec (url : String) (html : Html) : Option String :=
  (metaStep url html).orElse (fun _ =>
  (linkStep url html).orElse (fun _ =>
  (anchorStep url html).orElse (fun _ => html.rawPdf)))

/-- HTTP response to the DOI content-negotiation GET: content type header,
final URL after redirects, and the first four body bytes. -/
structure NegResp where
  ctype : String
  url : String
  first4 : Bytes
deriving DecidableEq

/-- HTTP response to a HEAD probe: content type header and final URL. -/
structure HeadResp where
  ctype : String
  url : String
deriving DecidableEq

/-- HTTP response to a landing-page GET: status code, content type header,
final URL after redirects, and the parsed body. -/
structure GetResp where
  status : Nat
  ctype : String
  url : String
  html : Html
deriving DecidableEq

/-- Streaming download response: status code, final URL after redirects, the
chunks yielded by iter_content, and an optional transport failure raised
after the listed chunks have been yielded. -/
structure StreamResp where
  status : Nat
  url : String
  chunks : List Bytes
  streamErr : Option String
deriving DecidableEq

/-- Injected network capabilities. Each field is an oracle mapping a request
URL to the response the external world produced; none models a raised
transport exception at the corresponding call site. The unpaywall field
abstracts the HTTP request and JSON field fallbacks inside
unpaywall_pdf_for_doi, returning the URL that function body would return. -/
structure Net where
  unpaywall : String → String → Option String
  negGet : String → Option NegResp
  head : String → Option HeadResp
  get : String → Option GetResp
  stream : String → Except String StreamResp

/-- Translation of unpaywall_pdf_for_doi: the guard on a missing doi or email
is from the source; the network lookup itself is the oracle. -/
def unpaywall_pdf_for_doi (net : Net) (doi email : String) : Option String :=
  if doi = "" || email = "" then none else net.unpaywall doi email

/-- Translation of is_doi_like from download_pdfs_from_csv.py. -/
def is_doi_like (s : String) : Bool :=
  if s = "" then false
  else
    let t := pyTrim s
    pyStartsWith t "10." || pyContains (pyLower t) "doi.org"

/-- Shared response handling of the DOI content-negotiation GET, written
identically in try_doi_content_negotiation (download_pdfs_from_csv.py) and
inline in try_resolve_pdf_url (scraper.py): accept on a pdf content type or a
final URL ending in .pdf, else accept when the first four body bytes are the
PDF magic marker. -/
def negotiationCheck (net : Net) (doi_url : String) : Option String :=
  match net.negGet doi_url with
  | none => none
  | some r =>
    let ctype := pyLower r.ctype
    let final := pyOr r.url doi_url
    if pyContains ctype "pdf" || pyEndsWith (pyLower final) ".pdf" then some final
    else if r.first4 = pdfMagic then some final
    else none

/-- Translation of try_doi_content_negotiation from
download_pdfs_from_csv.py. The source branches on a doi starting with 10.
separately from the default branch, but both produce the same prefixed URL. -/
def try_doi_content_negotiation (net : Net) (doi : String) : Option String :=
  if doi = "" then none
  else
    let doi_url :=
      if pyStartsWith doi "http" then doi
      else if pyStartsWith doi "10." then "https://doi.org/" ++ doi
      else "https://doi.org/" ++ doi
    negotiationCheck net doi_url

/-- Translation of head_is_pdf from download_pdfs_from_csv.py: HEAD probe
accepting a response whose content type contains pdf. -/
def head_is_pdf (net : Net) (url : String) : Option String :=
  match net.head url with
  | none => none
  | some h => if pyContains (pyLower h.ctype) "pdf" then some h.url else none

/-- Normalized row as resolve_pdf_url reads it: every field the function
accesses through row.get, with the empty string standing for a missing or
empty value exactly as process_csv fills absent columns with the empty
string. -/
structure Row where
  pdf_url : String := ""
  pdf : String := ""
  source : String := ""
  id : String := ""
  article_id : String := ""
  doi : String := ""
  title : String := ""
  openalex_pdf : String := ""
  best_pdf : String := ""
  landing_page : String := ""
  landing_url : String := ""
  url : String := ""
deriving DecidableEq

/-- Candidate URLs gathered from the row fields in the order the source
lists them, keeping only non-empty values. -/
def rowCandidates (row : Row) : List String :=
  [row.openalex_pdf, row.best_pdf, row.landing_page, row.landing_url, row.url].filter
    (fun v => v ≠ "")

/-- Body of the landing-page loop in resolve_pdf_url for one candidate URL:
GET the page, accept a direct PDF response, otherwise scrape the markup; a
scraped candidate is re-verified with a HEAD probe but the unverified
candidate is kept when the probe does not confirm it. -/
def landingAttempt (net : Net) (c : String) : Option (String × String) :=
  match net.get c with
  | none => none
  | some r =>
    let ctype := pyLower r.ctype
    let final_url := r.url
    if pyContains ctype "pdf" || pyEndsWith (pyLower final_url) ".pdf" then
      some (final_url, "landing_direct_pdf")
    else
      match pyStr (extract_pdf_from_html final_url r.html) with
      | some p =>
        let verified := pyStr (head_is_pdf net p)
        some (verified.getD p, "landing_parsed")
      | none => none

/-- Translation of resolve_pdf_url from download_pdfs_from_csv.py: the
ordered fallback chain over a normalized row. Python early returns become
nested matches; each truthiness test on an optional string goes through
pyStr. Returns the optional URL paired with the method string. -/
def resolve_pdf_url (row : Row) (email : String) (net : Net) : Option String × String :=
  let pdf := pyOr row.pdf_url row.pdf
  if pdf ≠ "" then (some pdf, "csv_pdf_url")
  else
  match (if pyLower row.source = "arxiv" then
           let ident := pyOr row.id row.article_id
           if ident ≠ "" then
             if pyContains ident "arxiv.org/abs/" then
               let pdf_link := pyReplace ident "/abs/" "/pdf/"
               some (if pyEndsWith pdf_link ".pdf" then pdf_link else pdf_link ++ ".pdf")
             else if pyStartsWith ident "arXiv:" then
               some ("https://arxiv.org/pdf/" ++ pyDrop ident 6 ++ ".pdf")
             else none
           else none
         else none) with
  | some pdf_link => (some pdf_link, "arxiv_construct")
  | none =>
  match (if row.doi ≠ "" && email ≠ "" then
           pyStr (unpaywall_pdf_for_doi net row.doi email)
         else none) with
  | some up => (some up, "unpaywall")
  | none =>
  match (if row.doi ≠ "" && is_doi_like row.doi then
           pyStr (try_doi_content_negotiation net row.doi)
         else none) with
  | some dn => (some dn, "doi_negotiation")
  | none =>
  match (rowCandidates row).findSome? (fun c => pyStr (head_is_pdf net c)) with
  | some hpdf => (some hpdf, "head_pdf_candidate")
  | none =>
  match (rowCandidates row).findSome? (fun c => landingAttempt net c) with
  | some r => (some r.1, r.2)
  | none => (none, "no_pdf_found")

/-- Specification-level method labels of the resolver strategies. -/
inductive Method where
  | csv_direct
  | source_construct
  | api_lookup
  | content_negotiation
  | candidate_probe
  | landing_scrape
deriving DecidableEq

/-- Strategy one of the chain: a URL already carried by the row. -/
def stratCsv (row : Row) : Option String :=
  let pdf := pyOr row.pdf_url row.pdf
  if pdf ≠ "" then some pdf else none

/-- Strategy two of the chain: deterministic arXiv construction. -/
def stratArxiv (row : Row) : Option String :=
  if pyLower row.source = "arxiv" then
    let ident := pyOr row.id row.article_id
    if ident ≠ "" then
      if pyContains ident "arxiv.org/abs/" then
        let pdf_link := pyReplace ident "/abs/" "/pdf/"
        some (if pyEndsWith pdf_link ".pdf" then pdf_link else pdf_link ++ ".pdf")
      else if pyStartsWith ident "arXiv:" then
        some ("https://arxiv.org/pdf/" ++ pyDrop ident 6 ++ ".pdf")
      else none
    else none
  else none

/-- Strategy three of the chain: open-access lookup keyed by DOI, gated on a
DOI and a contact email both being present. -/
def stratApi (row : Row) (email : String) (net : Net) : Option String :=
  if row.doi ≠ "" && email ≠ "" then pyStr (unpaywall_pdf_for_doi net row.doi email)
  else none

/-- Strategy four of the chain: DOI content negotiation, gated on a DOI-like
value. -/
def stratNeg (row : Row) (net : Net) : Option String :=
  if row.doi ≠ "" && is_doi_like row.doi then pyStr (try_doi_content_negotiation net row.doi)
  else none

/-- Strategy five of the chain: HEAD probe over the remaining candidates. -/
def stratProbe (row : Row) (net : Net) : Option String :=
  (rowCandidates row).findSome? (fun c => pyStr (head_is_pdf net c))

/-- Strategy six of the chain: landing-page fetch and scrape over the
remaining candidates. -/
def stratScrape (row : Row) (net : Net) : Option String :=
  ((rowCandidates row).findSome? (fun c => landingAttempt net c)).map Prod.fst

/-- Resolver chain written from the specification: the six strategies tried
strictly in the stated order; the first strategy yielding a URL terminates
the chain with that URL and its method. -/
def chainSpec (row : Row) (email : String) (net : Net) : Option (String × Method) :=
  ((stratCsv row).map (fun u => (u, Method.csv_direct))).orElse (fun _ =>
  ((stratArxiv row).map (fun u => (u, Method.source_construct))).orElse (fun _ =>
  ((stratApi row email net).map (fun u => (u, Method.api_lookup))).orElse (fun _ =>
  ((stratNeg row net).map (fun u => (u, Method.content_negotiation))).orElse (fun _ =>
  ((stratProbe row net).map (fun u => (u, Method.candidate_probe))).orElse (fun _ =>
  (stratScrape row net).map (fun u => (u, Method.landing_scrape)))))))

/-- Specification-level method named by each method string the resolver
attaches to a returned URL; resolve_pdf_url only ever pairs a URL with one
of the six listed strings, and both landing strings denote the scrape
strategy. -/
def methodOf (m : String) : Method :=
  if m = "csv_pdf_url" then Method.csv_direct
  else if m = "arxiv_construct" then Method.source_construct
  else if m = "unpaywall" then Method.api_lookup
  else if m = "doi_negotiation" then Method.content_negotiation
  else if m = "head_pdf_candidate" then Method.candidate_probe
  else Method.landing_scrape

/-- Outcome of resolve_pdf_url abstracted to the specification vocabulary:
the URL paired with the specification-level method, or none when the chain
is exhausted. -/
def resolveAbs (row : Row) (email : String) (net : Net) : Option (String × Method) :=
  match resolve_pdf_url row email net with
  | (some u, m) => some (u, methodOf m)
  | (none, _) => none

/-- Scan for the anchored regex in is_doi_url: at least one digit followed by
a slash. -/
def digitsThenSlash (l : List Char) : Bool :=
  match l with
  | [] => false
  | c :: cs => if c.isDigit then digitsThenSlashRest cs else false
where
  digitsThenSlashRest : List Char → Bool
  | [] => false
  | c :: cs => if c.isDigit then digitsThenSlashRest cs else decide (c = '/')

/-- Translation of is_doi_url from scraper.py: the lowered string contains
doi.org followed by a slash, or starts with 10. followed by at least one
digit and a slash, as the anchored regex there demands. -/
def is_doi_url (u : String) : Bool :=
  if u = "" then false
  else
    let v := pyLower u
    pyContains v "doi.org/" || (pyStartsWith v "10." && digitsThenSlash (pyDrop v 3).data)

/-- Landing-page step of try_resolve_pdf_url from scraper.py: GET with
raise_for_status, accept a direct PDF response, otherwise scrape; a scraped
candidate is confirmed with a HEAD probe, is returned unverified only when
that probe raises, and is discarded when the probe completes without
confirming it. -/
def scraperLanding (net : Net) (candidate_url : String) : Option String :=
  match net.get candidate_url with
  | none => none
  | some r =>
    if r.status ≥ 400 then none
    else
      let ctype := pyLower r.ctype
      let final_url := r.url
      if pyContains ctype "pdf" || pyEndsWith (pyLower final_url) ".pdf" then some final_url
      else
        match pyStr (extract_pdf_from_html final_url r.html) with
        | some pdf_candidate =>
          match net.head pdf_candidate with
          | none => some pdf_candidate
          | some h2 =>
            if pyContains (pyLower h2.ctype) "pdf" || pyEndsWith (pyLower h2.url) ".pdf" then
              some h2.url
            else none
        | none => none

/-- Translation of try_resolve_pdf_url from scraper.py: unpaywall lookup,
then content negotiation when the candidate looks like a DOI, then an early
empty-candidate exit, then the HEAD probe, then the landing-page step. -/
def try_resolve_pdf_url (candidate_url doi email : String) (net : Net) : Option String :=
  match (if doi ≠ "" && email ≠ "" then pyStr (unpaywall_pdf_for_doi net doi email)
         else none) with
  | some pdf => some pdf
  | none =>
  match (if is_doi_url candidate_url then
           let doi_url :=
             if pyStartsWith candidate_url "10." then "https://doi.org/" ++ candidate_url
             else if pyStartsWith candidate_url "http" then candidate_url
             else "https://" ++ candidate_url
           negotiationCheck net doi_url
         else none) with
  | some final => some final
  | none =>
  if candidate_url = "" then none
  else
  match (match net.head candidate_url with
         | none => none
         | some h => if pyContains (pyLower h.ctype) "pdf" then some h.url else none) with
  | some u => some u
  | none => scraperLanding net candidate_url

/-- Strategy three of the topic resolver: open-access lookup keyed by DOI. -/
def tryStratApi (doi email : String) (net : Net) : Option String :=
  if doi ≠ "" && email ≠ "" then pyStr (unpaywall_pdf_for_doi net doi email) else none

/-- Strategy four of the topic resolver: content negotiation on a DOI-like
candidate. -/
def tryStratNeg (candidate_url : String) (net : Net) : Option String :=
  if is_doi_url candidate_url then
    let doi_url :=
      if pyStartsWith candidate_url "10." then "https://doi.org/" ++ candidate_url
      else if pyStartsWith candidate_url "http" then candidate_url
      else "https://" ++ candidate_url
    negotiationCheck net doi_url
  else none

/-- Strategy five of the topic resolver: HEAD probe of the candidate. -/
def tryStratProbe (candidate_url : String) (net : Net) : Option String :=
  if candidate_url = "" then none
  else
    match net.head candidate_url with
    | none => none
    | some h => if pyContains (pyLower h.ctype) "pdf" then some h.url else none

/-- Strategy six of the topic resolver: landing-page fetch and scrape of the
candidate. -/
def tryStratScrape (candidate_url : String) (net : Net) : Option String :=
  if candidate_url = "" then none else scraperLanding net candidate_url

/-- Topic resolver chain written from the specification: the four strategies
present in scraper.py tried strictly in the specification order. -/
def tryChainSpec (candidate_url doi email : String) (net : Net) : Option String :=
  (tryStratApi doi email net).orElse (fun _ =>
  (tryStratNeg candidate_url net).orElse (fun _ =>
  (tryStratProbe candidate_url net).orElse (fun _ =>
  tryStratScrape candidate_url net)))

/-- Outcome of a streaming download: the success flag and error string the
function returns, plus the bytes of the destination file, where none means
the file was never created. -/
structure DlResult where
  ok : Bool
  err : Option String
  file : Option Bytes
deriving DecidableEq

/-- Validation predicate of the streaming validators, inline in both
sources: the final URL ends in .pdf ignoring case, or the first four bytes
of the initial chunk are the PDF magic marker, or the marker occurs anywhere
in the initial chunk. -/
def pdfPredicate (final : String) (first : Bytes) : Bool :=
  pyEndsWith (pyLower final) ".pdf" || first.take 4 == pdfMagic || occursWithin pdfMagic first

/-- Translation of download_stream_and_validate from
download_pdfs_from_csv.py. The streaming GET is the stream oracle value:
a transport exception before any response, the HTTP error status raised by
raise_for_status, an empty iterator, the validation predicate on the first
chunk, and only then the writes, with a transport failure after the yielded
chunks surfacing as the exception message next to the partially written
file. -/
def download_stream_and_validate (resp : Except String StreamResp) (url : String) : DlResult :=
  match resp with
  | .error e => ⟨false, some e, none⟩
  | .ok r =>
    if r.status ≥ 400 then ⟨false, some ("http_error_" ++ toString r.status), none⟩
    else
      match r.chunks with
      | [] =>
        match r.streamErr with
        | some e => ⟨false, some e, none⟩
        | none => ⟨false, some "empty_response", none⟩
      | first :: rest =>
        let final := pyOr r.url url
        if ¬ pdfPredicate final first then ⟨false, some "not_pdf", none⟩
        else
          let contents := first ++ (rest.filter (fun ch => ch ≠ [])).flatten
          match r.streamErr with
          | some e => ⟨false, some e, some contents⟩
          | none => ⟨true, none, some contents⟩

/-- Translation of download_file_with_validation from scraper.py, whose body
is line-for-line the body of download_stream_and_validate. -/
def download_file_with_validation (resp : Except String StreamResp) (url : String) : DlResult :=
  match resp with
  | .error e => ⟨false, some e, none⟩
  | .ok r =>
    if r.status ≥ 400 then ⟨false, some ("http_error_" ++ toString r.status), none⟩
    else
      match r.chunks with
      | [] =>
        match r.streamErr with
        | some e => ⟨false, some e, none⟩
        | none => ⟨false, some "empty_response", none⟩
      | first :: rest =>
        let final := pyOr r.url url
        if ¬ pdfPredicate final first then ⟨false, some "not_pdf", none⟩
        else
          let contents := first ++ (rest.filter (fun ch => ch ≠ [])).flatten
          match r.streamErr with
          | some e => ⟨false, some e, some contents⟩
          | none => ⟨true, none, some contents⟩

/-- Result row fields a single orchestrated item produces: the URL recorded
as used, whether a file was saved, and the recorded error string. Directory
and file name construction are filesystem plumbing outside the model. -/
structure ItemResult where
  pdf_url_used : String
  saved : Bool
  error : String
deriving DecidableEq

/-- Per-row download logic of process_csv from download_pdfs_from_csv.py:
resolve, download with validation, and on failure for the repair-eligible
methods perform one secondary attempt that re-fetches the resolved URL as a
page, scrapes it, and re-validates a found candidate once, keeping the
original error string when the repair also fails. The bounded resolver
retry loop collapses because the embedded resolver raises nothing. -/
def process_row (row : Row) (email : String) (net : Net) : ItemResult :=
  match resolve_pdf_url row email net with
  | (resolved, method) =>
    match pyStr resolved with
    | some pdf_url_used =>
      let dl := download_stream_and_validate (net.stream pdf_url_used) pdf_url_used
      if dl.ok then ⟨pdf_url_used, true, ""⟩
      else
        let error := method ++ "|" ++ dl.err.getD ""
        if pyContains method "doi_negotiation" || pyContains method "unpaywall" ||
            pyContains method "landing" || pyContains method "csv_pdf_url" then
          match net.get pdf_url_used with
          | none => ⟨pdf_url_used, false, error⟩
          | some r =>
            match pyStr (extract_pdf_from_html r.url r.html) with
            | some cand =>
              let dl2 := download_stream_and_validate (net.stream cand) cand
              if dl2.ok then ⟨cand, true, ""⟩ else ⟨cand, false, error⟩
            | none => ⟨pdf_url_used, false, error⟩
        else ⟨pdf_url_used, false, error⟩
    | none => ⟨"", false, pyOr method "no_pdf_found"⟩

/-- Modelled from the spec: the secondary repair step, stated once so the
orchestrator equation below can name it. Re-fetch the resolved URL as an
HTML page, run it through the landing-page scrape logic, and when a new
candidate is found re-run validation exactly once against it, keeping the
original failure string when the repair fails. -/
def repairSpec (net : Net) (url origError : String) : ItemResult :=
  match net.get url with
  | none => ⟨url, false, origError⟩
  | some r =>
    match pyStr (extract_pdf_from_html r.url r.html) with
    | some cand =>
      let dl2 := download_stream_and_validate (net.stream cand) cand
      if dl2.ok then ⟨cand, true, ""⟩ else ⟨cand, false, origError⟩
    | none => ⟨url, false, origError⟩

/-- Per-work download logic of download_for_topic from scraper.py: resolve
when a candidate or DOI exists, download with validation, and record the
outcome with no secondary attempt of any kind. -/
def process_work (candidate doi email : String) (net : Net) : ItemResult :=
  let pdf_url :=
    if candidate ≠ "" || doi ≠ "" then try_resolve_pdf_url candidate doi email net else none
  match pyStr pdf_url with
  | some u =>
    let dl := download_file_with_validation (net.stream u) u
    if dl.ok then ⟨u, true, ""⟩
    else ⟨u, false, pyOr (dl.err.getD "") "download_failed"⟩
  | none => ⟨"", false, "no_pdf_url_found"⟩

/-- Translation of normalize_title from vision2030_multi_source_harvest.py:
lowercase, punctuation to whitespace, whitespace collapsed and trimmed. The
regex character classes are modelled over ASCII: word characters are
alphanumerics and the underscore. -/
def normalize_title (title : String) : String :=
  if title = "" then ""
  else
    let t := pyLower title
    let t := t.data.map (fun c => if c.isAlphanum || c == '_' || pySpace c then c else ' ')
    String.mk (joinWith " ".data ((splitGroups pySpace t).filter (fun w => w ≠ [])))

/-- Content fields of one harvested item that the merger consults. -/
structure HarvestItem where
  source : String := ""
  id : String := ""
  doi : String := ""
  title : String := ""
deriving DecidableEq

/-- Canonical deduplication key as harvest_all computes it inline: the
lowercased, stripped DOI, falling back to the normalized title when that is
empty. -/
def canonical_key (doi title : String) : String :=
  let key := pyTrim (pyLower doi)
  if key = "" then normalize_title title else key

/-- One deduplicated entry of the seen map: the first-seen representative
item plus the two monotone provenance sets and the first query sector. -/
structure MergedRec where
  item : HarvestItem
  assigned_sectors : Finset String
  sources : Finset String
  query_sector : String
deriving DecidableEq

/-- Add the sector and source tags to the entry holding the given key,
mirroring the two set.add calls on an existing seen entry. -/
def addProvenance (seen : List (String × MergedRec)) (key sector src : String) :
    List (String × MergedRec) :=
  seen.map (fun p =>
    if p.1 = key then
      (p.1, { p.2 with
              assigned_sectors := insert sector p.2.assigned_sectors,
              sources := insert src p.2.sources })
    else p)

/-- Membership of a key in the seen map. -/
def hasKey (seen : List (String × MergedRec)) (key : String) : Bool :=
  seen.any (fun p => p.1 == key)

/-- Translation of the per-item deduplication block repeated for each
fetcher inside harvest_all: compute the canonical key, drop the item when
the key is empty, union provenance into an existing entry, or append a
fresh entry whose sets start from this sighting. The insertion-ordered
Python dict and the parallel rows list are modelled as one association
list. -/
def ingest (seen : List (String × MergedRec)) (item : HarvestItem) (sector src : String) :
    List (String × MergedRec) :=
  let key := canonical_key item.doi item.title
  if key = "" then seen
  else if hasKey seen key then addProvenance seen key sector src
  else seen ++ [(key, ⟨item, {sector}, {src}, sector⟩)]

theorem download_file_eq_download_stream :
    ∀ (resp : Except String StreamResp) (url : String),
      download_file_with_validation resp url = download_stream_and_validate resp url :=
  fun _ _ => rfl

/-- C2: the content validator accepts a fetched stream, one that produced a
non-error status, at least one chunk, and no transport failure, exactly when
the final post-redirect URL ends in .pdf, or the first four bytes of the
initial chunk are the PDF magic marker, or the marker occurs anywhere in the
initial chunk; when the predicate fails it returns ok false with reason
not_pdf and no file, and the scraper.py validator behaves identically. -/
theorem validator_accepts_iff_predicate :
    ∀ (r : StreamResp) (url : String) (first : Bytes) (rest : List Bytes),
      r.status < 400 → r.chunks = first :: rest → r.streamErr = none →
      (((download_stream_and_validate (.ok r) url).ok = true) ↔
          pdfPredicate (pyOr r.url url) first = true)
      ∧ (pdfPredicate (pyOr r.url url) first = false →
          download_stream_and_validate (.ok r) url = ⟨false, some "not_pdf", none⟩)
      ∧ download_file_with_validation (.ok r) url = download_stream_and_validate (.ok r) url := by
  intro r url first rest hst hch herr
  obtain ⟨st, u, ch, se⟩ := r
  simp only at hst hch herr
  subst hch herr
  have hlt : ¬ st ≥ 400 := by omega
  refine ⟨?_, ?_, rfl⟩
  · by_cases hp : pdfPredicate (pyOr u url) first = true <;>
      simp [download_stream_and_validate, hlt, hp]
  · intro hp
    simp [download_stream_and_validate, hlt, hp]

theorem validator_accepts_iff_predicate_witness :
    (⟨200, "https://host/doc", [[37, 80, 68, 70, 1]], none⟩ : StreamResp).status < 400
    ∧ (download_stream_and_validate
        (.ok ⟨200, "https://host/doc", [[37, 80, 68, 70, 1]], none⟩) "https://host/doc").ok
        = true := by
  refine ⟨by decide, ?_⟩
  have h := validator_accepts_iff_predicate
    ⟨200, "https://host/doc", [[37, 80, 68, 70, 1]], none⟩ "https://host/doc"
    [37, 80, 68, 70, 1] [] (by decide) rfl rfl
  exact h.1.mpr (by decide)

/-- C3: on a stream failing the acceptance predicate the validator returns
not_pdf, on a zero-byte stream it returns empty_response, and in both cases
the destination file is never created; conversely a created file always
attests a stream whose first chunk passed the predicate, so bytes reach the
destination only after the predicate has passed. -/
theorem validator_no_file_on_failure :
    ∀ (resp : Except String StreamResp) (url : String),
      ((download_stream_and_validate resp url).file.isSome = true →
        ∃ (r : StreamResp) (first : Bytes) (rest : List Bytes),
          resp = .ok r ∧ r.status < 400 ∧ r.chunks = first :: rest ∧
          pdfPredicate (pyOr r.url url) first = true)
      ∧ (∀ r : StreamResp, resp = .ok r → r.status < 400 → r.chunks = [] →
          r.streamErr = none →
          download_stream_and_validate resp url = ⟨false, some "empty_response", none⟩)
      ∧ (∀ (r : StreamResp) (first : Bytes) (rest : List Bytes),
          resp = .ok r → r.status < 400 → r.chunks = first :: rest →
          pdfPredicate (pyOr r.url url) first = false →
          download_stream_and_validate resp url = ⟨false, some "not_pdf", none⟩)
      ∧ download_file_with_validation resp url = download_stream_and_validate resp url := by
  intro resp url
  refine ⟨?_, ?_, ?_, rfl⟩
  · intro hfile
    match resp with
    | .error e => simp [download_stream_and_validate] at hfile
    | .ok r =>
      obtain ⟨st, u, ch, se⟩ := r
      by_cases hst : st ≥ 400
      · simp [download_stream_and_validate, hst] at hfile
      · match ch with
        | [] =>
          cases se <;> simp [download_stream_and_validate, hst] at hfile
        | first :: rest =>
          by_cases hp : pdfPredicate (pyOr u url) first = true
          · exact ⟨⟨st, u, first :: rest, se⟩, first, rest, rfl, by show st < 400; omega, rfl, hp⟩
          · simp [download_stream_and_validate, hst, hp] at hfile
  · intro r hr hst hch herr
    subst hr
    obtain ⟨st, u, ch, se⟩ := r
    simp only at hst hch herr
    subst hch herr
    have hlt : ¬ st ≥ 400 := by omega
    simp [download_stream_and_validate, hlt]
  · intro r first rest hr hst hch hp
    subst hr
    obtain ⟨st, u, ch, se⟩ := r
    simp only at hst hch hp
    subst hch
    have hlt : ¬ st ≥ 400 := by omega
    simp [download_stream_and_validate, hlt, hp]

theorem validator_no_file_on_failure_witness :
    download_stream_and_validate
        (.ok ⟨200, "https://host/page", [[60, 104, 116, 109, 108, 62]], none⟩)
        "https://host/page"
      = ⟨false, some "not_pdf", none⟩ := by
  have h := validator_no_file_on_failure
    (.ok ⟨200, "https://host/page", [[60, 104, 116, 109, 108, 62]], none⟩) "https://host/page"
  exact h.2.2.1 ⟨200, "https://host/page", [[60, 104, 116, 109, 108, 62]], none⟩
    [60, 104, 116, 109, 108, 62] [] rfl (by decide) rfl (by decide)

/-- C10: when the predicate passes on the first chunk but the stream raises
a transport failure while later chunks are read, the validator returns ok
false carrying the exception message, while the destination file has
already been created and holds the prefix of the stream yielded before the
failure; the no-partial-file guarantee covers only failures occurring
before the predicate passes. -/
theorem partial_file_on_late_transport_failure :
    ∀ (r : StreamResp) (url : String) (first : Bytes) (rest : List Bytes) (e : String),
      r.status < 400 → r.chunks = first :: rest → r.streamErr = some e →
      pdfPredicate (pyOr r.url url) first = true →
      download_stream_and_validate (.ok r) url =
        ⟨false, some e, some (first ++ (rest.filter (fun ch => ch ≠ [])).flatten)⟩ := by
  intro r url first rest e hst hch herr hp
  obtain ⟨st, u, ch, se⟩ := r
  simp only at hst hch herr hp
  subst hch herr
  have hlt : ¬ st ≥ 400 := by omega
  simp [download_stream_and_validate, hlt, hp]

theorem partial_file_on_late_transport_failure_witness :
    download_stream_and_validate
        (.ok ⟨200, "https://host/a.pdf", [[37, 80, 68, 70], [9]], some "connection reset"⟩)
        "https://host/a.pdf"
      = ⟨false, some "connection reset", some [37, 80, 68, 70, 9]⟩ := by
  have h := partial_file_on_late_transport_failure
    ⟨200, "https://host/a.pdf", [[37, 80, 68, 70], [9]], some "connection reset"⟩
    "https://host/a.pdf" [37, 80, 68, 70] [[9]] "connection reset"
    (by decide) rfl rfl (by decide)
  simpa using h

/-- C5: the landing-page scrape equals the ordered four-step examination of
the specification, meta tags first, then pdf-typed link elements, then
anchors, then the raw regex scan, with every discovered reference resolved
against the supplied page URL; in particular a meta tag carrying the
root-relative reference /f/paper.pdf on the page whose final URL is
https://pub.example/article/1 resolves to https://pub.example/f/paper.pdf. -/
theorem scrape_order_and_relative_resolution :
    (∀ (url : String) (html : Html), extract_pdf_from_html url html = extractSpec url html)
    ∧ extract_pdf_from_html "https://pub.example/article/1"
        ⟨[Tag.meta (some "citation_pdf_url") none (some "/f/paper.pdf")], none⟩
        = some "https://pub.example/f/paper.pdf" := by
  constructor
  · intro url html
    have hdef : extract_pdf_from_html url html =
        (match metaStep url html with
         | some r => some r
         | none =>
           match linkStep url html with
           | some r => some r
           | none =>
             match anchorStep url html with
             | some r => some r
             | none => html.rawPdf) := rfl
    rw [hdef]
    unfold extractSpec
    cases metaStep url html <;> cases linkStep url html <;> cases anchorStep url html <;> rfl
  · decide


theorem hasKey_addProvenance (seen : List (String × MergedRec)) (key sector src k : String) :
    hasKey (addProvenance seen key sector src) k = hasKey seen k := by
  unfold hasKey addProvenance
  rw [List.any_map]
  congr 1
  funext p
  by_cases hp : p.1 = key <;> simp [Function.comp, hp]

theorem addProvenance_of_hasKey_eq_false (key sector src : String) :
    ∀ seen : List (String × MergedRec), hasKey seen key = false →
      addProvenance seen key sector src = seen := by
  intro seen
  induction seen with
  | nil => intro _; rfl
  | cons p t ih =>
    intro h
    simp only [hasKey, List.any_cons, Bool.or_eq_false_iff] at h
    obtain ⟨h1, h2⟩ := h
    have hp : ¬ p.1 = key := by simpa using h1
    simp only [addProvenance, List.map_cons, if_neg hp]
    congr 1
    exact ih (by simpa [hasKey] using h2)

theorem addProvenance_idem (seen : List (String × MergedRec)) (key sector src : String) :
    addProvenance (addProvenance seen key sector src) key sector src =
      addProvenance seen key sector src := by
  unfold addProvenance
  rw [List.map_map]
  congr 1
  funext p
  by_cases hp : p.1 = key
  · simp [Function.comp, hp, Finset.insert_idem]
  · simp [Function.comp, hp]

/-- C8: merger ingestion is idempotent; feeding the same item, sector and
source tag twice leaves the seen map exactly as a single ingestion leaves
it, because a repeated sighting only unions the sector and source into the
two provenance sets. -/
theorem ingest_idempotent :
    ∀ (seen : List (String × MergedRec)) (item : HarvestItem) (sector src : String),
      ingest (ingest seen item sector src) item sector src = ingest seen item sector src := by
  intro seen item sector src
  unfold ingest
  by_cases hk : canonical_key item.doi item.title = ""
  · simp [hk]
  · simp only [hk, if_false]
    by_cases hs : hasKey seen (canonical_key item.doi item.title)
    · simp [hs, hasKey_addProvenance, addProvenance_idem]
    · simp only [hs, if_false, Bool.false_eq_true]
      have happ : hasKey (seen ++ [(canonical_key item.doi item.title,
          ⟨item, {sector}, {src}, sector⟩)]) (canonical_key item.doi item.title) = true := by
        simp [hasKey]
      simp only [happ, if_true]
      have hsplit : addProvenance (seen ++ [(canonical_key item.doi item.title,
            ⟨item, {sector}, {src}, sector⟩)]) (canonical_key item.doi item.title) sector src
          = addProvenance seen (canonical_key item.doi item.title) sector src ++
            addProvenance [(canonical_key item.doi item.title,
              ⟨item, {sector}, {src}, sector⟩)] (canonical_key item.doi item.title) sector src := by
        simp [addProvenance]
      rw [hsplit, addProvenance_of_hasKey_eq_false _ _ _ _ (by simpa using hs)]
      simp [addProvenance, Finset.insert_idem]

/-- C7: the canonical deduplication key is the lowercased, trimmed DOI when
one is present and the normalized title otherwise; ingesting DOI 10.1/ABC
from openalex and then 10.1/abc from arxiv yields one merged entry whose
provenance sources contain both tags, and the two DOI-less titles
Water Supply, Zambia! and water supply zambia receive the same key and merge
into a single entry. -/
theorem canonical_key_merge_scenarios :
    canonical_key "10.1/ABC" "T one" = canonical_key "10.1/abc" "T two"
    ∧ (ingest (ingest [] ⟨"openalex", "idA", "10.1/ABC", "T one"⟩ "Health" "openalex")
          ⟨"arxiv", "idB", "10.1/abc", "T two"⟩ "Health" "arxiv").length = 1
    ∧ (ingest (ingest [] ⟨"openalex", "idA", "10.1/ABC", "T one"⟩ "Health" "openalex")
          ⟨"arxiv", "idB", "10.1/abc", "T two"⟩ "Health" "arxiv").map
        (fun p => p.2.sources) = [({"openalex", "arxiv"} : Finset String)]
    ∧ normalize_title "Water Supply, Zambia!" = normalize_title "water supply zambia"
    ∧ (ingest (ingest [] ⟨"openalex", "id1", "", "Water Supply, Zambia!"⟩
            "Water_and_Sanitation" "openalex")
          ⟨"arxiv", "id2", "", "water supply zambia"⟩ "Water_and_Sanitation" "arxiv").length
        = 1 := by
  refine ⟨by decide, by decide, ?_, by decide, by decide⟩
  decide

/-- Shape of resolve_pdf_url with each inline step named by its strategy;
every scrutinee below is definitionally the corresponding inline expression
of resolve_pdf_url. -/
def resolveShape (row : Row) (email : String) (net : Net) : Option String × String :=
  match stratCsv row with
  | some pdf => (some pdf, "csv_pdf_url")
  | none =>
  match stratArxiv row with
  | some pdf_link => (some pdf_link, "arxiv_construct")
  | none =>
  match stratApi row email net with
  | some up => (some up, "unpaywall")
  | none =>
  match stratNeg row net with
  | some dn => (some dn, "doi_negotiation")
  | none =>
  match stratProbe row net with
  | some hpdf => (some hpdf, "head_pdf_candidate")
  | none =>
  match (rowCandidates row).findSome? (fun c => landingAttempt net c) with
  | some r => (some r.1, r.2)
  | none => (none, "no_pdf_found")

theorem resolve_pdf_url_eq_shape (row : Row) (email : String) (net : Net) :
    resolve_pdf_url row email net = resolveShape row email net := by
  unfold resolve_pdf_url resolveShape stratCsv
  by_cases h : pyOr row.pdf_url row.pdf ≠ ""
  · simp only [if_pos h]
  · simp only [if_neg h]
    rfl

theorem landingAttempt_method (net : Net) (c : String) (r : String × String)
    (h : landingAttempt net c = some r) :
    r.2 = "landing_direct_pdf" ∨ r.2 = "landing_parsed" := by
  unfold landingAttempt at h
  cases hg : net.get c with
  | none => rw [hg] at h; cases h
  | some resp =>
    rw [hg] at h
    simp only at h
    by_cases hc : (pyContains (pyLower resp.ctype) "pdf" ||
        pyEndsWith (pyLower resp.url) ".pdf") = true
    · rw [if_pos hc] at h
      cases h
      exact Or.inl rfl
    · rw [if_neg hc] at h
      cases he : pyStr (extract_pdf_from_html resp.url resp.html) with
      | none => rw [he] at h; cases h
      | some p =>
        rw [he] at h
        cases h
        exact Or.inr rfl

theorem methodOf_csv : methodOf "csv_pdf_url" = Method.csv_direct := by decide

theorem methodOf_arxiv : methodOf "arxiv_construct" = Method.source_construct := by decide

theorem methodOf_unpaywall : methodOf "unpaywall" = Method.api_lookup := by decide

theorem methodOf_neg : methodOf "doi_negotiation" = Method.content_negotiation := by decide

theorem methodOf_head : methodOf "head_pdf_candidate" = Method.candidate_probe := by decide

theorem methodOf_landing_direct : methodOf "landing_direct_pdf" = Method.landing_scrape := by
  decide

theorem methodOf_landing_parsed : methodOf "landing_parsed" = Method.landing_scrape := by decide

theorem resolveAbs_eq_chainSpec (row : Row) (email : String) (net : Net) :
    resolveAbs row email net = chainSpec row email net := by
  unfold resolveAbs
  rw [resolve_pdf_url_eq_shape]
  unfold resolveShape chainSpec stratScrape
  cases h1 : stratCsv row with
  | some pdf => simp [Option.orElse, methodOf_csv]
  | none =>
  cases h2 : stratArxiv row with
  | some l => simp [Option.orElse, methodOf_arxiv]
  | none =>
  cases h3 : stratApi row email net with
  | some up => simp [Option.orElse, methodOf_unpaywall]
  | none =>
  cases h4 : stratNeg row net with
  | some dn => simp [Option.orElse, methodOf_neg]
  | none =>
  cases h5 : stratProbe row net with
  | some hpdf => simp [Option.orElse, methodOf_head]
  | none =>
  cases h6 : (rowCandidates row).findSome? (fun c => landingAttempt net c) with
  | some r =>
    obtain ⟨c, _, hc⟩ := List.exists_of_findSome?_eq_some h6
    rcases landingAttempt_method net c r hc with h | h <;>
      simp [Option.orElse, h, methodOf_landing_direct, methodOf_landing_parsed]
  | none => simp [Option.orElse]

/-- Shape of try_resolve_pdf_url with the first two inline steps named by
their strategies; each scrutinee is definitionally the corresponding inline
expression of try_resolve_pdf_url. -/
def tryShape (candidate_url doi email : String) (net : Net) : Option String :=
  match tryStratApi doi email net with
  | some pdf => some pdf
  | none =>
  match tryStratNeg candidate_url net with
  | some final => some final
  | none =>
  if candidate_url = "" then none
  else
  match (match net.head candidate_url with
         | none => none
         | some h => if pyContains (pyLower h.ctype) "pdf" then some h.url else none) with
  | some u => some u
  | none => scraperLanding net candidate_url

theorem try_resolve_eq_tryChainSpec (candidate_url doi email : String) (net : Net) :
    try_resolve_pdf_url candidate_url doi email net = tryChainSpec candidate_url doi email net := by
  rw [show try_resolve_pdf_url candidate_url doi email net
        = tryShape candidate_url doi email net from rfl]
  unfold tryShape tryChainSpec
  cases hA : tryStratApi doi email net with
  | some pdf => simp [Option.orElse]
  | none =>
  cases hN : tryStratNeg candidate_url net with
  | some final => simp [Option.orElse]
  | none =>
  by_cases hc : candidate_url = ""
  · simp [Option.orElse, tryStratProbe, tryStratScrape, hc]
  · cases hH : net.head candidate_url with
    | none => simp [Option.orElse, tryStratProbe, tryStratScrape, hc, hH]
    | some h =>
      by_cases hp : pyContains (pyLower h.ctype) "pdf" = true <;>
        simp [Option.orElse, tryStratProbe, tryStratScrape, hc, hH, hp]

/-- C1: both resolvers are their ordered first-success strategy chains. The
CSV resolver equals the six-strategy chain in the order csv_direct,
source_construct, api_lookup, content_negotiation, candidate_probe,
landing_scrape, returning the URL and method of the first strategy that
yields a URL; the topic resolver equals the chain of its four strategies in
the same relative order. In particular, for any record carrying both a DOI
and a contact email, api_lookup is consulted before content_negotiation,
which is consulted before landing_scrape. -/
theorem resolver_chain_first_success_order :
    (∀ (row : Row) (email : String) (net : Net),
        resolveAbs row email net = chainSpec row email net)
    ∧ (∀ (candidate_url doi email : String) (net : Net),
        try_resolve_pdf_url candidate_url doi email net
          = tryChainSpec candidate_url doi email net) :=
  ⟨resolveAbs_eq_chainSpec, try_resolve_eq_tryChainSpec⟩

/-- Network oracle that answers nothing, for scenarios that touch no network. -/
def emptyNet : Net :=
  { unpaywall := fun _ _ => none
    negGet := fun _ => none
    head := fun _ => none
    get := fun _ => none
    stream := fun _ => .error "network disabled" }

/-- C4 counterexample: the recorded arXiv scenario yields the http scheme of
the identifier, not the https URL the claim states, because the construction
replaces abs with pdf inside the identifier and so preserves its scheme. -/
theorem arxiv_scenario_scheme_counterexample :
    resolve_pdf_url { source := "arxiv", id := "http://arxiv.org/abs/1234.5678" } "" emptyNet
      = (some "http://arxiv.org/pdf/1234.5678.pdf", "arxiv_construct")
    ∧ resolve_pdf_url { source := "arxiv", id := "http://arxiv.org/abs/1234.5678" } "" emptyNet
      ≠ (some "https://arxiv.org/pdf/1234.5678.pdf", "arxiv_construct") := by
  constructor <;> decide

/-- C4 amended: for an arXiv record with no direct pdf URL the
source_construct strategy derives the PDF URL deterministically, replacing
abs with pdf in the identifier and appending the pdf suffix when absent,
preserving the identifier scheme, or mapping an arXiv-colon identifier to
the https arxiv pdf URL; in particular the recorded scenario resolves to
the http arXiv pdf URL with method arxiv_construct. -/
theorem arxiv_construct_amended :
    (∀ (row : Row) (email : String) (net : Net),
      pyOr row.pdf_url row.pdf = "" →
      pyLower row.source = "arxiv" →
      (pyContains (pyOr row.id row.article_id) "arxiv.org/abs/" = true →
        resolve_pdf_url row email net =
          (some (if pyEndsWith (pyReplace (pyOr row.id row.article_id) "/abs/" "/pdf/") ".pdf"
                 then pyReplace (pyOr row.id row.article_id) "/abs/" "/pdf/"
                 else pyReplace (pyOr row.id row.article_id) "/abs/" "/pdf/" ++ ".pdf"),
           "arxiv_construct"))
      ∧ (pyContains (pyOr row.id row.article_id) "arxiv.org/abs/" = false →
         pyStartsWith (pyOr row.id row.article_id) "arXiv:" = true →
         pyOr row.id row.article_id ≠ "" →
         resolve_pdf_url row email net =
           (some ("https://arxiv.org/pdf/" ++ pyDrop (pyOr row.id row.article_id) 6 ++ ".pdf"),
            "arxiv_construct")))
    ∧ (∀ (email : String) (net : Net),
        resolve_pdf_url { source := "arxiv", id := "http://arxiv.org/abs/1234.5678" } email net
          = (some "http://arxiv.org/pdf/1234.5678.pdf", "arxiv_construct")) := by
  constructor
  · intro row email net h1 h2
    constructor
    · intro habs
      have hid : pyOr row.id row.article_id ≠ "" := by
        intro h0
        rw [h0] at habs
        exact absurd habs (by decide)
      rw [resolve_pdf_url_eq_shape]
      unfold resolveShape
      rw [show stratCsv row = none from by simp [stratCsv, h1]]
      simp [stratArxiv, h2, hid, habs]
    · intro hnabs hstart hid
      rw [resolve_pdf_url_eq_shape]
      unfold resolveShape
      rw [show stratCsv row = none from by simp [stratCsv, h1]]
      simp [stratArxiv, h2, hid, hnabs, hstart]
  · intro email net
    rfl

theorem arxiv_construct_amended_witness :
    resolve_pdf_url { source := "arxiv", id := "http://arxiv.org/abs/1234.5678" } "" emptyNet
      = (some "http://arxiv.org/pdf/1234.5678.pdf", "arxiv_construct") := by
  have h := (arxiv_construct_amended.1
      { source := "arxiv", id := "http://arxiv.org/abs/1234.5678" } "" emptyNet
      (by decide) (by decide)).1 (by decide)
  rw [h]
  decide

/-- Network oracle for the landing-scrape scenarios: the landing page holds
one anchor to a relative pdf path, and the HEAD probe of the scraped
candidate completes with a non-pdf answer. -/
def c6Net : Net :=
  { unpaywall := fun _ _ => none
    negGet := fun _ => none
    head := fun u =>
      if u = "https://land/x.pdf" then some ⟨"text/html", "https://land/x"⟩ else none
    get := fun u =>
      if u = "https://land/page" then
        some ⟨200, "text/html", "https://land/page", ⟨[Tag.anchor "x.pdf"], none⟩⟩
      else none
    stream := fun _ => .error "network disabled" }

/-- C6 counterexample: in the topic resolver of scraper.py, a landing scrape
that finds a candidate whose verification probe runs and fails to confirm it
discards the candidate: the resolver returns nothing, not the unverified
candidate. -/
theorem scraper_probe_unconfirmed_counterexample :
    extract_pdf_from_html "https://land/page" ⟨[Tag.anchor "x.pdf"], none⟩
      = some "https://land/x.pdf"
    ∧ (c6Net.head "https://land/x.pdf").isSome = true
    ∧ try_resolve_pdf_url "https://land/page" "" "" c6Net = none := by
  refine ⟨by decide, by decide, by decide⟩

/-- C6 amended: in resolve_pdf_url of download_pdfs_from_csv.py a scraped
candidate whose verification probe does not confirm it, whether the probe
raised or completed without confirming, is still returned unverified; in
try_resolve_pdf_url of scraper.py the unverified candidate is returned only
when the probe raises, and a probe that completes without confirming causes
the candidate to be discarded and the resolver to report nothing found. -/
theorem landing_best_effort_amended :
    (∀ (net : Net) (c : String) (r : GetResp) (p : String),
      net.get c = some r →
      (pyContains (pyLower r.ctype) "pdf" || pyEndsWith (pyLower r.url) ".pdf") = false →
      pyStr (extract_pdf_from_html r.url r.html) = some p →
      head_is_pdf net p = none →
      landingAttempt net c = some (p, "landing_parsed"))
    ∧ (∀ (net : Net) (c : String) (r : GetResp) (p : String) (h2 : HeadResp),
      net.get c = some r → r.status < 400 →
      (pyContains (pyLower r.ctype) "pdf" || pyEndsWith (pyLower r.url) ".pdf") = false →
      pyStr (extract_pdf_from_html r.url r.html) = some p →
      net.head p = some h2 →
      (pyContains (pyLower h2.ctype) "pdf" || pyEndsWith (pyLower h2.url) ".pdf") = false →
      scraperLanding net c = none)
    ∧ (∀ (net : Net) (c : String) (r : GetResp) (p : String),
      net.get c = some r → r.status < 400 →
      (pyContains (pyLower r.ctype) "pdf" || pyEndsWith (pyLower r.url) ".pdf") = false →
      pyStr (extract_pdf_from_html r.url r.html) = some p →
      net.head p = none →
      scraperLanding net c = some p) := by
  refine ⟨?_, ?_, ?_⟩
  · intro net c r p hg hdirect hex hhead
    unfold landingAttempt
    rw [hg]
    simp only [hdirect, Bool.false_eq_true, if_false, hex, hhead]
    rfl
  · intro net c r p h2 hg hst hdirect hex hhead hunconf
    unfold scraperLanding
    rw [hg]
    have hlt : ¬ r.status ≥ 400 := by omega
    simp only [hlt, if_false, hdirect, Bool.false_eq_true, hex, hhead, hunconf]
  · intro net c r p hg hst hdirect hex hhead
    unfold scraperLanding
    rw [hg]
    have hlt : ¬ r.status ≥ 400 := by omega
    simp only [hlt, if_false, hdirect, Bool.false_eq_true, hex, hhead]

theorem landing_best_effort_amended_witness :
    landingAttempt c6Net "https://land/page" = some ("https://land/x.pdf", "landing_parsed") := by
  exact landing_best_effort_amended.1 c6Net "https://land/page"
    ⟨200, "text/html", "https://land/page", ⟨[Tag.anchor "x.pdf"], none⟩⟩ "https://land/x.pdf"
    (by decide) (by decide) (by decide) (by decide)

/-- Network oracle for the repair scenarios: the open-access lookup answers
one DOI with a document URL whose stream is not a PDF, and the landing page
of that URL holds an anchor to a candidate whose stream is a PDF. -/
def c9Net : Net :=
  { unpaywall := fun doi email =>
      if doi = "10.1/x" && email = "e@x" then some "https://site/doc" else none
    negGet := fun _ => none
    head := fun _ => none
    get := fun u =>
      if u = "https://site/doc" then
        some ⟨200, "text/html", "https://site/doc", ⟨[Tag.anchor "good.pdf"], none⟩⟩
      else none
    stream := fun u =>
      if u = "https://site/doc" then .ok ⟨200, "https://site/doc", [[1]], none⟩
      else if u = "https://site/good.pdf" then
        .ok ⟨200, "https://site/good.pdf", [[37, 80, 68, 70]], none⟩
      else .error "network disabled" }

/-- C9 counterexample: the orchestrator of scraper.py performs no secondary
repair even for a URL resolved via api_lookup, one of the four
repair-eligible methods of the claim. At this input the candidate is empty,
so the api_lookup strategy alone yields the URL, which validation rejects
with not_pdf; a repair as the claim describes it would have scraped the
page and saved the re-validated candidate, yet download_for_topic records
the failure as final. -/
theorem scraper_no_repair_counterexample :
    tryStratApi "10.1/x" "e@x" c9Net = some "https://site/doc"
    ∧ try_resolve_pdf_url "" "10.1/x" "e@x" c9Net = some "https://site/doc"
    ∧ (download_file_with_validation (c9Net.stream "https://site/doc") "https://site/doc").ok
        = false
    ∧ process_work "" "10.1/x" "e@x" c9Net = ⟨"https://site/doc", false, "not_pdf"⟩
    ∧ (repairSpec c9Net "https://site/doc" "not_pdf").saved = true := by
  refine ⟨by decide, by decide, by decide, by decide, by decide⟩

/-- C9 amended: only the CSV download orchestrator of
download_pdfs_from_csv.py performs the secondary repair. When validation of
a resolved URL fails there and the method is one of doi_negotiation,
unpaywall, a landing method or csv_pdf_url, its outcome equals exactly one
repair pass: re-fetch the resolved URL as a page, scrape it, re-validate a
found candidate once, and otherwise keep the original failure. The topic
orchestrator of scraper.py records the failure immediately with no repair. -/
theorem repair_only_in_csv_orchestrator :
    (∀ (row : Row) (email : String) (net : Net) (u m : String),
      resolve_pdf_url row email net = (some u, m) → u ≠ "" →
      (download_stream_and_validate (net.stream u) u).ok = false →
      (pyContains m "doi_negotiation" || pyContains m "unpaywall" ||
        pyContains m "landing" || pyContains m "csv_pdf_url") = true →
      process_row row email net
        = repairSpec net u
            (m ++ "|" ++ (download_stream_and_validate (net.stream u) u).err.getD ""))
    ∧ (∀ (candidate doi email : String) (net : Net) (u : String),
      (if candidate ≠ "" || doi ≠ "" then try_resolve_pdf_url candidate doi email net else none)
        = some u → u ≠ "" →
      (download_file_with_validation (net.stream u) u).ok = false →
      process_work candidate doi email net
        = ⟨u, false,
            pyOr ((download_file_with_validation (net.stream u) u).err.getD "")
              "download_failed"⟩) := by
  constructor
  · intro row email net u m hres hu hdl hm
    unfold process_row
    rw [hres]
    simp only [pyStr, hu, if_neg hu, hdl, Bool.false_eq_true, if_false, hm, if_true]
    unfold repairSpec
    cases hg : net.get u with
    | none => rfl
    | some r =>
      cases hex : pyStr (extract_pdf_from_html r.url r.html) with
      | none => rfl
      | some cand => rfl
  · intro candidate doi email net u hres hu hdl
    unfold process_work
    rw [hres]
    simp only [pyStr, hu, if_neg hu, hdl, Bool.false_eq_true, if_false]

theorem repair_only_in_csv_orchestrator_witness :
    process_row { pdf_url := "https://site/doc" } "" c9Net
      = ⟨"https://site/good.pdf", true, ""⟩ := by
  have h := repair_only_in_csv_orchestrator.1 { pdf_url := "https://site/doc" } "" c9Net
      "https://site/doc" "csv_pdf_url" (by decide) (by decide) (by decide) (by decide)
  rw [h]
  decide
